import Mathlib

/-!
Shallow embedding of `custom_components/marstek_cloud/coordinator.py` and the
calculated-power sensors of `custom_components/marstek_cloud/sensor.py`
(repository thomasgriebner/marstek_cloud), together with proofs about the
token-refresh/retry state machine, the error classification of the
coordinator, the device filter and the calculated charge/discharge split.

Modelling conventions:
* JSON values are the inductive `JVal`.  Python `None` is `JVal.jnull`;
  Python floats are modelled as exact rationals (`JVal.jrat`) - every value
  the API can deliver through JSON is a decimal literal, and no claim
  depends on binary rounding of floats.
* The network is an oracle: each HTTP request consumes the next entry of a
  queue (`loginQueue` for the login endpoint, `deviceQueue` for the
  device-list endpoint).  Each entry carries the outcome (an HTTP response
  with an optional parsed body, where `none` models a body that fails JSON
  parsing, or an in-flight `aiohttp.ClientError`) and the duration of the
  exchange in seconds.
* `asyncio.timeout` blocks are modelled by a list of absolute deadlines,
  outermost first.  A blocking wait that would cross a deadline is
  cancelled at the earliest violated deadline; the `async with` block that
  owns the fired deadline converts the cancellation into a `TimeoutError`
  at its exit, exactly as `asyncio` does, and blocks in between pass the
  cancellation through (no handler in this code base catches
  `CancelledError`).
* Exceptions are the `Except` monad; the http request parameters (MD5
  password hash, email, token query parameter) do not influence the oracle
  and are therefore not materialised.
-/

inductive JVal where
  | jnull : JVal
  | jbool : Bool → JVal
  | jint : Int → JVal
  | jrat : ℚ → JVal
  | jstr : String → JVal
  | jarr : List JVal → JVal
  | jobj : List (String × JVal) → JVal

/-- Python truthiness (`bool(x)`). -/
def truthy : JVal → Bool
  | .jnull => false
  | .jbool b => b
  | .jint n => n != 0
  | .jrat q => q != 0
  | .jstr s => s != ""
  | .jarr xs => !xs.isEmpty
  | .jobj fs => !fs.isEmpty

/-- numeric view of a Python value: bool, int and float support arithmetic
and compare numerically across types. -/
def toNum : JVal → Option ℚ
  | .jbool b => some (if b then 1 else 0)
  | .jint n => some (n : ℚ)
  | .jrat q => some q
  | _ => none

/-- Python `type(x).__name__`. -/
def pyTypeName : JVal → String
  | .jnull => "NoneType"
  | .jbool _ => "bool"
  | .jint _ => "int"
  | .jrat _ => "float"
  | .jstr _ => "str"
  | .jarr _ => "list"
  | .jobj _ => "dict"

/-- CPython `str(float)` renders a decimal with a point (for example
`str(8.0) == "8.0"`).  The model only ever compares the result with the
digit string `"8"`, so the exact decimal rendering of a non-integral
rational is irrelevant; what matters is that the string of a float always
contains a point or a slash and is never a bare digit string. -/
def pyFloatStr (q : ℚ) : String :=
  if q.den = 1 then toString q.num ++ ".0" else toString q

/-- Python `str(x)` for the values the model manipulates.  Containers are
rendered bracket-delimited like CPython does (the inner rendering of
container elements is approximated; the code under verification only
compares `str(code)` with `"8"` and formats log messages, for which only
scalars occur). -/
def pyStr : JVal → String
  | .jnull => "None"
  | .jbool b => if b then "True" else "False"
  | .jint n => toString n
  | .jrat q => pyFloatStr q
  | .jstr s => s
  | .jarr _ => "[...]"
  | .jobj _ => "\x7b...\x7d"

mutual
/-- Python `==`.  Numbers (bool/int/float) compare numerically across
types; the dict case is approximated by ordered field-list equality (the
code under verification only ever compares values against scalar
constants, so the container cases are never exercised). -/
def pyEq : JVal → JVal → Bool
  | a, b =>
    match toNum a, toNum b with
    | some x, some y => x == y
    | _, _ =>
      match a, b with
      | .jnull, .jnull => true
      | .jstr s, .jstr t => s == t
      | .jarr xs, .jarr ys => pyEqList xs ys
      | .jobj fs, .jobj gs => pyEqFields fs gs
      | _, _ => false

def pyEqList : List JVal → List JVal → Bool
  | [], [] => true
  | x :: xs, y :: ys => pyEq x y && pyEqList xs ys
  | _, _ => false

def pyEqFields : List (String × JVal) → List (String × JVal) → Bool
  | [], [] => true
  | (k, v) :: fs, (l, w) :: gs => k == l && pyEq v w && pyEqFields fs gs
  | _, _ => false
end

/-- dict key lookup: `some v` when the key is present (first occurrence;
Python dict keys are unique).  `none` for a missing key or a non-dict. -/
def jlookup (v : JVal) (k : String) : Option JVal :=
  match v with
  | .jobj fs => fs.lookup k
  | _ => none

/-- Python `d.get(k)`: `None` when the key is absent. -/
def jget (v : JVal) (k : String) : JVal :=
  (jlookup v k).getD .jnull

/-- Python `d.get(k, default)`. -/
def jgetD (v : JVal) (k : String) (d : JVal) : JVal :=
  (jlookup v k).getD d

/-- Python `k in d` on a dict. -/
def jhasKey (v : JVal) (k : String) : Bool :=
  (jlookup v k).isSome

def listIsPrefixChars : List Char → List Char → Bool
  | [], _ => true
  | _ :: _, [] => false
  | a :: as, b :: bs => a == b && listIsPrefixChars as bs

def listIsInfixChars : List Char → List Char → Bool
  | needle, [] => needle.isEmpty
  | needle, b :: rest =>
    listIsPrefixChars needle (b :: rest) || listIsInfixChars needle rest

/-- Python substring test `needle in hay`. -/
def strContains (hay needle : String) : Bool :=
  listIsInfixChars needle.toList hay.toList

/-- the idiom `data.get("msg") or data.get("message", "Unknown error")`
followed by f-string formatting. -/
def errMsgStr (data : JVal) : String :=
  let m := jget data "msg"
  pyStr (if truthy m then m else jgetD data "message" (.jstr "Unknown error"))

/- Constants of `const.py`. -/

def API_TIMEOUT : ℚ := 10

def API_RETRY_TIMEOUT : ℚ := 10

def IGNORED_DEVICE_TYPES : List String := ["HME-3"]

/-- `TOKEN_INVALID_CODES`: the six sentinel values -1, "-1", 401, "401",
403, "403" (a Python set; membership uses Python equality). -/
def TOKEN_INVALID_CODES : List JVal :=
  [.jint (-1), .jstr "-1", .jint 401, .jstr "401", .jint 403, .jstr "403"]

def tokenInvalid (c : JVal) : Bool :=
  TOKEN_INVALID_CODES.any (fun s => pyEq c s)

/- Oracle environment and exception model. -/

/-- outcome of one HTTP exchange once the wait completes. -/
inductive NetOutcome where
  | resp : Nat → Option JVal → NetOutcome
  | err : String → NetOutcome

/-- one queued network exchange: its duration in seconds and its outcome. -/
structure NetResult where
  dur : ℚ
  out : NetOutcome

/-- exceptions crossing the embedded control flow. -/
inductive Exc where
  | updateFailed : String → Exc
  | clientError : String → Exc
  | timeoutError : Exc
  | cancelled : Nat → Exc
  | modelError : Exc

/-- the mutable state of one `MarstekAPI` instance plus the oracle.
`token` is `self._token` (a Python value or `None`); `now` is the event
loop clock; the queues are the not-yet-consumed oracle entries. -/
structure ApiState where
  token : Option JVal
  now : ℚ
  loginQueue : List NetResult
  deviceQueue : List NetResult

/-- `if not self._token`. -/
def tokenTruthy (st : ApiState) : Bool :=
  match st.token with
  | none => false
  | some v => truthy v

/-- earliest violated deadline (strictly before the completion time
`tEnd`), ties resolved towards the innermost block; `i` is the index of
the first deadline of `ds` in the full deadline list. -/
def pickFired (i : Nat) (ds : List ℚ) (tEnd : ℚ) : Option (Nat × ℚ) :=
  match ds with
  | [] => none
  | dl :: rest =>
    if dl < tEnd then
      match pickFired (i + 1) rest tEnd with
      | none => some (i, dl)
      | some q => if dl < q.2 then some (i, dl) else some q
    else
      pickFired (i + 1) rest tEnd

/-- a blocking wait of duration `dur` under active deadlines `ds`
(outermost first): either it completes and the clock advances by `dur`,
or the earliest violated deadline fires and the wait is cancelled at that
deadline. -/
def doWait (ds : List ℚ) (dur : ℚ) (st : ApiState) : ApiState × Except Exc Unit :=
  match pickFired 0 ds (st.now + dur) with
  | none => ({ st with now := st.now + dur }, .ok ())
  | some p => ({ st with now := p.2 }, .error (.cancelled p.1))

/-- `async with asyncio.timeout(dur)`: registers the deadline
`now + dur` as the innermost one; a cancellation caused by this very
deadline is converted into `TimeoutError` at block exit, every other
outcome passes through. -/
def withTimeout {α : Type} (dur : ℚ) (ds : List ℚ) (st : ApiState)
    (body : List ℚ → ApiState → ApiState × Except Exc α) :
    ApiState × Except Exc α :=
  let r := body (ds ++ [st.now + dur]) st
  match r.2 with
  | .error (.cancelled i) =>
    if i = ds.length then (r.1, .error .timeoutError) else r
  | _ => r

/- `MarstekAPI` operations (coordinator.py). -/

/-- `MarstekAPI._parse_json_response` (also inlined by `_get_token`): parse
the body (`none` models a `ValueError`/`ContentTypeError` from
`resp.json()`) and require a dict. -/
def parse_json_response (body : Option JVal) : Except Exc JVal :=
  match body with
  | none => .error (.updateFailed "API returned invalid response format")
  | some data =>
    match data with
    | .jobj fs => .ok (.jobj fs)
    | _ =>
      .error (.updateFailed ("Unexpected API response type: " ++ pyTypeName data))

/-- body of the `async with asyncio.timeout(API_TIMEOUT)` block of
`MarstekAPI._get_token`: issue the login request, classify the HTTP
status in order (401, then >= 500, then != 200), parse the body, extract
a truthy `token` field and store it. -/
def get_token_body (ds : List ℚ) (st : ApiState) : ApiState × Except Exc Unit :=
  match st.loginQueue with
  | [] => (st, .error .modelError)
  | nr :: rest =>
    match doWait ds nr.dur { st with loginQueue := rest } with
    | (st2, .error e) => (st2, .error e)
    | (st2, .ok ()) =>
      match nr.out with
      | .err m => (st2, .error (.clientError m))
      | .resp status body =>
        if status = 401 then
          (st2, .error (.updateFailed "Invalid email or password"))
        else if 500 ≤ status then
          (st2, .error (.updateFailed
            ("API temporarily unavailable (HTTP " ++ toString status ++ ")")))
        else if status ≠ 200 then
          (st2, .error (.updateFailed
            ("API request failed (HTTP " ++ toString status ++ ")")))
        else
          match parse_json_response body with
          | .error e => (st2, .error e)
          | .ok data =>
            if truthy (jget data "token") then
              ({ st2 with token := some (jget data "token") }, .ok ())
            else
              (st2, .error (.updateFailed ("Login failed: " ++ errMsgStr data)))

/-- `MarstekAPI._get_token`: run `get_token_body` under
`asyncio.timeout(API_TIMEOUT)`; the `except` clauses translate
`TimeoutError` and `ClientError` into `UpdateFailed` and re-raise
`UpdateFailed` unchanged. -/
def get_token (ds : List ℚ) (st : ApiState) : ApiState × Except Exc Unit :=
  match withTimeout API_TIMEOUT ds st get_token_body with
  | (st1, .error .timeoutError) =>
    (st1, .error (.updateFailed "API request timeout - check network connection"))
  | (st1, .error (.clientError m)) =>
    (st1, .error (.updateFailed ("Network error: " ++ m)))
  | other => other

/-- `MarstekAPI._fetch_devices_with_token`: one device-list request with
the given token; HTTP >= 500 fails, any other non-200 status only logs a
warning and still attempts parsing. -/
def fetch_devices_with_token (tok : Option JVal) (ds : List ℚ) (st : ApiState) :
    ApiState × Except Exc JVal :=
  match st.deviceQueue with
  | [] => (st, .error .modelError)
  | nr :: rest =>
    match doWait ds nr.dur { st with deviceQueue := rest } with
    | (st2, .error e) => (st2, .error e)
    | (st2, .ok ()) =>
      match nr.out with
      | .err m => (st2, .error (.clientError m))
      | .resp status body =>
        if 500 ≤ status then
          (st2, .error (.updateFailed
            ("API temporarily unavailable (HTTP " ++ toString status ++ ")")))
        else
          match parse_json_response body with
          | .error e => (st2, .error e)
          | .ok data => (st2, .ok data)

/-- body of the retry timeout block of
`MarstekAPI._handle_token_refresh_and_retry`:
`self._fetch_devices_with_token(self._token)` with the freshly stored
token. -/
def retry_body (ds : List ℚ) (st : ApiState) : ApiState × Except Exc JVal :=
  fetch_devices_with_token st.token ds st

/-- `MarstekAPI._handle_token_refresh_and_retry`: refresh the token, then
retry the device fetch once under `asyncio.timeout(API_RETRY_TIMEOUT)`;
only `aiohttp.ClientError` is translated here, everything else
propagates. -/
def handle_token_refresh_and_retry (ds : List ℚ) (st : ApiState) :
    ApiState × Except Exc JVal :=
  match get_token ds st with
  | (st1, .error e) => (st1, .error e)
  | (st1, .ok ()) =>
    match withTimeout API_RETRY_TIMEOUT ds st1 retry_body with
    | (st2, .error (.clientError m)) =>
      (st2, .error (.updateFailed ("Network error on retry: " ++ m)))
    | other => other

/-- `MarstekAPI._filter_devices`: drop every device whose `type` is in
`IGNORED_DEVICE_TYPES` (Python list membership, so Python equality). -/
def filter_devices (devices : List JVal) : List JVal :=
  devices.filter
    (fun device => !(IGNORED_DEVICE_TYPES.any (fun t => pyEq (jget device "type") (.jstr t))))

/-- `MarstekAPI.get_devices`: acquire a token when the stored one is
falsy, fetch the device list under `asyncio.timeout(API_TIMEOUT)`,
refresh-and-retry once on a token-invalid sentinel code, clear the token
and fail on code 8, validate the `data` field and return the filtered
device list.  `get_devices_body` is the body of the outer
`async with asyncio.timeout(API_TIMEOUT)` block of `get_devices`; the
refresh and the retry run inside it, so the outer deadline stays active
during them. -/
def get_devices_body (ds : List ℚ) (st : ApiState) :
    ApiState × Except Exc (List JVal) :=
  match fetch_devices_with_token st.token ds st with
  | (st1, .error e) => (st1, .error e)
  | (st1, .ok data) =>
    match (if tokenInvalid (jget data "code")
           then handle_token_refresh_and_retry ds st1
           else (st1, Except.ok data)) with
    | (st2, .error e) => (st2, .error e)
    | (st2, .ok data2) =>
      if pyStr (jget data2 "code") = "8" then
        ({ st2 with token := none },
         .error (.updateFailed
           "API access denied (code 8) - account may not have API permissions"))
      else
        match jlookup data2 "data" with
        | none =>
          (st2, .error (.updateFailed
            ("Invalid API response: " ++ errMsgStr data2)))
        | some v =>
          match v with
          | .jarr devs => (st2, .ok (filter_devices devs))
          | _ => (st2, .error (.updateFailed "Invalid API response structure"))

/-- `MarstekAPI.get_devices`: `if not self._token: await self._get_token()`
(outside any timeout block, failures propagate as-is), then
`get_devices_body` under `asyncio.timeout(API_TIMEOUT)`; the `except`
clauses mirror `_get_token`. -/
def get_devices (st : ApiState) : ApiState × Except Exc (List JVal) :=
  match (if tokenTruthy st then (st, Except.ok ()) else get_token [] st) with
  | (st0, .error e) => (st0, .error e)
  | (st0, .ok ()) =>
    match withTimeout API_TIMEOUT [] st0 get_devices_body with
    | (st3, .error .timeoutError) =>
      (st3, .error (.updateFailed "API request timeout - check network connection"))
    | (st3, .error (.clientError m)) =>
      (st3, .error (.updateFailed ("Network error: " ++ m)))
    | other => other

/- `MarstekCoordinator` (coordinator.py). -/

/-- exceptions leaving `_async_update_data`. -/
inductive CoordExc where
  | configEntryAuthFailed : String → CoordExc
  | updateFailedExc : String → CoordExc
  | otherExc : Exc → CoordExc

/-- state of one `MarstekCoordinator`: the wrapped API client state and
`self.last_latency`. -/
structure CoordState where
  api : ApiState
  last_latency : Option ℚ

/-- CPython `round` rounds half to even; `rhe q` is `round(q)` for the
exact value `q`. -/
def rhe (q : ℚ) : Int :=
  if q - ⌊q⌋ < 1 / 2 then ⌊q⌋
  else if 1 / 2 < q - ⌊q⌋ then ⌊q⌋ + 1
  else if ⌊q⌋ % 2 = 0 then ⌊q⌋ else ⌊q⌋ + 1

/-- Python `round(q, 1)`. -/
def pyRound1 (q : ℚ) : ℚ := ((rhe (10 * q) : ℚ)) / 10

/-- `MarstekCoordinator._async_update_data`: measure latency around
`get_devices`; re-raise an `UpdateFailed` whose message mentions invalid
credentials or HTTP 401 as `ConfigEntryAuthFailed`, re-raise any other
`UpdateFailed` unchanged; on success store the elapsed milliseconds
rounded to one decimal and return the devices. -/
def async_update_data (cs : CoordState) : CoordState × Except CoordExc (List JVal) :=
  let start := cs.api.now
  match get_devices cs.api with
  | (st, .error (.updateFailed msg)) =>
    if strContains msg "Invalid email or password" || strContains msg "HTTP 401" then
      ({ cs with api := st }, .error (.configEntryAuthFailed msg))
    else
      ({ cs with api := st }, .error (.updateFailedExc msg))
  | (st, .error e) => ({ cs with api := st }, .error (.otherExc e))
  | (st, .ok devices) =>
    ({ api := st, last_latency := some (pyRound1 ((st.now - start) * 1000)) },
     .ok devices)

/- Calculated sensors (sensor.py). -/

/-- Python truthiness of `self._get_device_data()`, which returns the
device dict or `None`. -/
def optTruthy : Option JVal → Bool
  | none => false
  | some v => truthy v

/-- `MarstekCalculatedChargePowerSensor.native_value`: `0.0` when no
device data, else `max(0.0, round(pv - discharge, 1))` with both fields
defaulting to `0`; `none` models the `TypeError` Python would raise on a
non-numeric field. -/
def native_value_charge (dev : Option JVal) : Option ℚ :=
  if !optTruthy dev then some 0
  else
    let d := dev.getD .jnull
    match toNum (jgetD d "pv" (.jint 0)), toNum (jgetD d "discharge" (.jint 0)) with
    | some pv, some discharge => some (max 0 (pyRound1 (pv - discharge)))
    | _, _ => none

/-- `MarstekCalculatedDischargePowerSensor.native_value`: `0.0` when no
device data, else `max(0.0, round(discharge - pv, 1))`. -/
def native_value_discharge (dev : Option JVal) : Option ℚ :=
  if !optTruthy dev then some 0
  else
    let d := dev.getD .jnull
    match toNum (jgetD d "pv" (.jint 0)), toNum (jgetD d "discharge" (.jint 0)) with
    | some pv, some discharge => some (max 0 (pyRound1 (discharge - pv)))
    | _, _ => none

/- Helper lemmas about the embedding. -/

lemma pickFired_none (i : Nat) (ds : List ℚ) (tEnd : ℚ)
    (h : pickFired i ds tEnd = none) : ∀ dl ∈ ds, ¬ dl < tEnd := by
  induction ds generalizing i with
  | nil => intro dl hdl; cases hdl
  | cons d rest ih =>
    intro dl hdl
    rw [List.mem_cons] at hdl
    simp only [pickFired] at h
    by_cases hlt : d < tEnd
    · simp only [if_pos hlt] at h
      rcases hr : pickFired (i + 1) rest tEnd with _ | q <;> rw [hr] at h
      · simp at h
      · by_cases h2 : d < q.2 <;> simp [h2] at h
    · simp only [if_neg hlt] at h
      rcases hdl with rfl | hdl
      · exact hlt
      · exact ih _ h dl hdl

lemma pickFired_some_mem (i : Nat) (ds : List ℚ) (tEnd : ℚ) (p : Nat × ℚ)
    (h : pickFired i ds tEnd = some p) : p.2 ∈ ds ∧ p.2 < tEnd := by
  induction ds generalizing i p with
  | nil => simp [pickFired] at h
  | cons d rest ih =>
    simp only [pickFired] at h
    by_cases hlt : d < tEnd
    · simp only [if_pos hlt] at h
      rcases hr : pickFired (i + 1) rest tEnd with _ | q <;> rw [hr] at h
      · cases h
        exact ⟨List.mem_cons_self _ _, hlt⟩
      · by_cases h2 : d < q.2 <;> simp only [if_pos, if_neg, h2, if_true, if_false] at h
        · cases h
          exact ⟨List.mem_cons_self _ _, hlt⟩
        · cases h
          have := ih _ _ hr
          exact ⟨List.mem_cons_of_mem _ this.1, this.2⟩
    · simp only [if_neg hlt] at h
      have := ih _ _ h
      exact ⟨List.mem_cons_of_mem _ this.1, this.2⟩

lemma doWait_token (ds : List ℚ) (dur : ℚ) (st : ApiState) :
    (doWait ds dur st).1.token = st.token := by
  unfold doWait
  split <;> rfl

lemma doWait_loginQueue (ds : List ℚ) (dur : ℚ) (st : ApiState) :
    (doWait ds dur st).1.loginQueue = st.loginQueue := by
  unfold doWait
  split <;> rfl

lemma doWait_deviceQueue (ds : List ℚ) (dur : ℚ) (st : ApiState) :
    (doWait ds dur st).1.deviceQueue = st.deviceQueue := by
  unfold doWait
  split <;> rfl

lemma doWait_now_ge (ds : List ℚ) (dur : ℚ) (st : ApiState)
    (hds : ∀ dl ∈ ds, st.now ≤ dl) (hd : 0 ≤ dur) :
    st.now ≤ (doWait ds dur st).1.now := by
  unfold doWait
  rcases hp : pickFired 0 ds (st.now + dur) with _ | p
  · simpa using hd
  · have := pickFired_some_mem _ _ _ _ hp
    exact hds p.2 this.1

lemma doWait_ok_dl (ds : List ℚ) (dur : ℚ) (st : ApiState)
    (h : (doWait ds dur st).2 = .ok ()) :
    ∀ dl ∈ ds, (doWait ds dur st).1.now ≤ dl := by
  intro dl hdl
  unfold doWait at h ⊢
  rcases hp : pickFired 0 ds (st.now + dur) with _ | p <;>
    simp only [hp] at h ⊢
  · exact le_of_not_lt (pickFired_none _ _ _ hp dl hdl)
  · cases h

def dlOK (ds : List ℚ) (st : ApiState) : Prop := ∀ dl ∈ ds, st.now ≤ dl

def queuesWF (st : ApiState) : Prop :=
  (∀ r ∈ st.loginQueue, 0 ≤ r.dur) ∧ (∀ r ∈ st.deviceQueue, 0 ≤ r.dur)

def monoSpec {α : Type} (f : List ℚ → ApiState → ApiState × Except Exc α) : Prop :=
  ∀ ds st, queuesWF st → dlOK ds st →
    st.now ≤ (f ds st).1.now ∧ queuesWF (f ds st).1 ∧
    ∀ a, (f ds st).2 = .ok a → dlOK ds (f ds st).1

lemma withTimeout_fst {α : Type} (dur : ℚ) (ds : List ℚ) (st : ApiState)
    (b : List ℚ → ApiState → ApiState × Except Exc α) :
    (withTimeout dur ds st b).1 = (b (ds ++ [st.now + dur]) st).1 := by
  unfold withTimeout
  rcases hb : b (ds ++ [st.now + dur]) st with ⟨st1, r1⟩
  rcases r1 with e | a
  · rcases e <;> (try rfl)
    dsimp only
    split <;> rfl
  · rfl

lemma withTimeout_ok {α : Type} (dur : ℚ) (ds : List ℚ) (st : ApiState)
    (b : List ℚ → ApiState → ApiState × Except Exc α) (a : α)
    (h : (withTimeout dur ds st b).2 = .ok a) :
    (b (ds ++ [st.now + dur]) st).2 = .ok a := by
  unfold withTimeout at h
  rcases hb : b (ds ++ [st.now + dur]) st with ⟨st1, r1⟩
  rw [hb] at h
  rcases r1 with e | a2
  · rcases e <;> (try cases h)
    dsimp only at h
    split at h <;> cases h
  · exact h

lemma withTimeout_mono {α : Type} (dur : ℚ) (hdur : 0 ≤ dur)
    (b : List ℚ → ApiState → ApiState × Except Exc α) (hb : monoSpec b) :
    monoSpec (fun ds st => withTimeout dur ds st b) := by
  intro ds st hwf hdl
  have hdl2 : dlOK (ds ++ [st.now + dur]) st := by
    intro dl hdl2
    rcases List.mem_append.1 hdl2 with h | h
    · exact hdl dl h
    · simp only [List.mem_singleton] at h
      subst h
      linarith
  obtain ⟨h1, h2, h3⟩ := hb (ds ++ [st.now + dur]) st hwf hdl2
  refine ⟨?_, ?_, ?_⟩
  · rw [withTimeout_fst]; exact h1
  · rw [withTimeout_fst]; exact h2
  · intro a ha
    rw [withTimeout_fst]
    intro dl hdl3
    exact h3 a (withTimeout_ok dur ds st b a ha) dl (List.mem_append_left _ hdl3)

lemma fetch_mono (tok : Option JVal) : monoSpec (fetch_devices_with_token tok) := by
  intro ds st hwf hdl
  unfold fetch_devices_with_token
  rcases hq : st.deviceQueue with _ | ⟨nr, rest⟩
  · exact ⟨le_refl _, hwf, fun a _ => hdl⟩
  · dsimp only
    have hd : 0 ≤ nr.dur := hwf.2 nr (by rw [hq]; exact List.mem_cons_self _ _)
    have hwf1 : queuesWF { st with deviceQueue := rest } := by
      refine ⟨fun r hr => hwf.1 r hr, fun r hr => hwf.2 r ?_⟩
      rw [hq]
      exact List.mem_cons_of_mem _ hr
    rcases hw : doWait ds nr.dur { st with deviceQueue := rest } with ⟨st2, r2⟩
    have hnow : st.now ≤ st2.now := by
      have hg := doWait_now_ge ds nr.dur { st with deviceQueue := rest } hdl hd
      rw [hw] at hg
      exact hg
    have hwf2 : queuesWF st2 := by
      have t1 := doWait_loginQueue ds nr.dur { st with deviceQueue := rest }
      have t2 := doWait_deviceQueue ds nr.dur { st with deviceQueue := rest }
      rw [hw] at t1 t2
      refine ⟨fun r hr => hwf1.1 r ?_, fun r hr => hwf1.2 r ?_⟩
      · rwa [← t1]
      · rwa [← t2]
    rcases r2 with e | u
    · dsimp only
      exact ⟨hnow, hwf2, fun a ha => by cases ha⟩
    · have hdl2 : dlOK ds st2 := by
        intro dl hdl3
        have hg := doWait_ok_dl ds nr.dur { st with deviceQueue := rest } (by rw [hw]) dl hdl3
        rw [hw] at hg
        exact hg
      dsimp only
      rcases nr.out with ⟨status, body⟩ | m
      · dsimp only
        split
        · exact ⟨hnow, hwf2, fun a ha => by cases ha⟩
        · rcases hp : parse_json_response body with e | data <;> dsimp only
          · exact ⟨hnow, hwf2, fun a ha => by cases ha⟩
          · exact ⟨hnow, hwf2, fun a _ => hdl2⟩
      · exact ⟨hnow, hwf2, fun a ha => by cases ha⟩

lemma retry_body_mono : monoSpec retry_body := by
  intro ds st hwf hdl
  exact fetch_mono st.token ds st hwf hdl

lemma get_token_body_mono : monoSpec get_token_body := by
  intro ds st hwf hdl
  unfold get_token_body
  rcases hq : st.loginQueue with _ | ⟨nr, rest⟩
  · exact ⟨le_refl _, hwf, fun a _ => hdl⟩
  · dsimp only
    have hd : 0 ≤ nr.dur := hwf.1 nr (by rw [hq]; exact List.mem_cons_self _ _)
    have hwf1 : queuesWF { st with loginQueue := rest } := by
      refine ⟨fun r hr => hwf.1 r ?_, fun r hr => hwf.2 r hr⟩
      rw [hq]
      exact List.mem_cons_of_mem _ hr
    rcases hw : doWait ds nr.dur { st with loginQueue := rest } with ⟨st2, r2⟩
    have hnow : st.now ≤ st2.now := by
      have hg := doWait_now_ge ds nr.dur { st with loginQueue := rest } hdl hd
      rw [hw] at hg
      exact hg
    have hwf2 : queuesWF st2 := by
      have t1 := doWait_loginQueue ds nr.dur { st with loginQueue := rest }
      have t2 := doWait_deviceQueue ds nr.dur { st with loginQueue := rest }
      rw [hw] at t1 t2
      refine ⟨fun r hr => hwf1.1 r ?_, fun r hr => hwf1.2 r ?_⟩
      · rwa [← t1]
      · rwa [← t2]
    rcases r2 with e | u
    · dsimp only
      exact ⟨hnow, hwf2, fun a ha => by cases ha⟩
    · have hdl2 : dlOK ds st2 := by
        intro dl hdl3
        have hg := doWait_ok_dl ds nr.dur { st with loginQueue := rest } (by rw [hw]) dl hdl3
        rw [hw] at hg
        exact hg
      dsimp only
      rcases nr.out with ⟨status, body⟩ | m
      · dsimp only
        split
        · exact ⟨hnow, hwf2, fun a ha => by cases ha⟩
        · split
          · exact ⟨hnow, hwf2, fun a ha => by cases ha⟩
          · split
            · exact ⟨hnow, hwf2, fun a ha => by cases ha⟩
            · rcases hp : parse_json_response body with e | data <;> dsimp only
              · exact ⟨hnow, hwf2, fun a ha => by cases ha⟩
              · split
                · exact ⟨hnow, hwf2, fun a _ => hdl2⟩
                · exact ⟨hnow, hwf2, fun a ha => by cases ha⟩
      · exact ⟨hnow, hwf2, fun a ha => by cases ha⟩

lemma get_token_mono : monoSpec get_token := by
  intro ds st hwf hdl
  obtain ⟨h1, h2, h3⟩ :=
    withTimeout_mono API_TIMEOUT (by norm_num [API_TIMEOUT]) get_token_body
      get_token_body_mono ds st hwf hdl
  unfold get_token
  dsimp only at h1 h2 h3
  rcases hr : withTimeout API_TIMEOUT ds st get_token_body with ⟨st1, r1⟩
  rw [hr] at h1 h2 h3
  rcases r1 with e | a
  · rcases e <;> exact ⟨h1, h2, fun a ha => by cases ha⟩
  · exact ⟨h1, h2, fun a ha => h3 a ha⟩

lemma handle_mono : monoSpec handle_token_refresh_and_retry := by
  intro ds st hwf hdl
  obtain ⟨g1, g2, g3⟩ := get_token_mono ds st hwf hdl
  unfold handle_token_refresh_and_retry
  rcases hg : get_token ds st with ⟨st1, r1⟩
  rw [hg] at g1 g2 g3
  rcases r1 with e | u
  · exact ⟨g1, g2, fun a ha => by cases ha⟩
  · have hdl1 : dlOK ds st1 := g3 () rfl
    obtain ⟨w1, w2, w3⟩ :=
      withTimeout_mono API_RETRY_TIMEOUT (by norm_num [API_RETRY_TIMEOUT])
        retry_body retry_body_mono ds st1 g2 hdl1
    dsimp only
    dsimp only at w1 w2 w3
    rcases hw : withTimeout API_RETRY_TIMEOUT ds st1 retry_body with ⟨st2, r2⟩
    rw [hw] at w1 w2 w3
    rcases r2 with e | d
    · rcases e <;> exact ⟨le_trans g1 w1, w2, fun a ha => by cases ha⟩
    · exact ⟨le_trans g1 w1, w2, fun a ha => w3 a ha⟩

lemma get_devices_body_mono : monoSpec get_devices_body := by
  intro ds st hwf hdl
  obtain ⟨f1, f2, f3⟩ := fetch_mono st.token ds st hwf hdl
  unfold get_devices_body
  rcases hf : fetch_devices_with_token st.token ds st with ⟨st1, r1⟩
  rw [hf] at f1 f2 f3
  rcases r1 with e | data
  · exact ⟨f1, f2, fun a ha => by cases ha⟩
  · have hdl1 : dlOK ds st1 := f3 data rfl
    dsimp only
    split
    case h_1 st2 e heq =>
      split at heq
      · obtain ⟨m1, m2, m3⟩ := handle_mono ds st1 f2 hdl1
        rw [heq] at m1 m2 m3
        exact ⟨le_trans f1 m1, m2, fun a ha => by cases ha⟩
      · simp at heq
    case h_2 st2 data2 heq =>
      have hkey : st.now ≤ st2.now ∧ queuesWF st2 ∧ dlOK ds st2 := by
        split at heq
        · obtain ⟨m1, m2, m3⟩ := handle_mono ds st1 f2 hdl1
          rw [heq] at m1 m2 m3
          exact ⟨le_trans f1 m1, m2, m3 data2 rfl⟩
        · rcases heq with ⟨⟩
          exact ⟨f1, f2, hdl1⟩
      obtain ⟨k1, k2, k3⟩ := hkey
      split
      · exact ⟨k1, k2, fun a ha => by cases ha⟩
      · split
        · exact ⟨k1, k2, fun a ha => by cases ha⟩
        · split
          · exact ⟨k1, k2, fun a _ => k3⟩
          · exact ⟨k1, k2, fun a ha => by cases ha⟩

lemma get_devices_now (st : ApiState) (hwf : queuesWF st) :
    st.now ≤ (get_devices st).1.now := by
  unfold get_devices
  rcases hs : (if tokenTruthy st then (st, Except.ok ()) else get_token [] st)
      with ⟨st0, r0⟩
  have h0 : st.now ≤ st0.now ∧ queuesWF st0 := by
    split at hs
    · cases hs
      exact ⟨le_refl _, hwf⟩
    · obtain ⟨g1, g2, _⟩ := get_token_mono [] st hwf (by intro dl h; cases h)
      rw [hs] at g1 g2
      exact ⟨g1, g2⟩
  rcases r0 with e | u
  · exact h0.1
  · obtain ⟨w1, w2, _⟩ :=
      withTimeout_mono API_TIMEOUT (by norm_num [API_TIMEOUT]) get_devices_body
        get_devices_body_mono [] st0 h0.2 (by intro dl h; cases h)
    dsimp only
    dsimp only at w1 w2
    rcases hw : withTimeout API_TIMEOUT [] st0 get_devices_body with ⟨st3, r3⟩
    rw [hw] at w1 w2
    rcases r3 with e | d
    · rcases e <;> exact le_trans h0.1 w1
    · exact le_trans h0.1 w1

lemma withTimeout_of_body_ok {α : Type} (dur : ℚ) (ds : List ℚ) (st : ApiState)
    (b : List ℚ → ApiState → ApiState × Except Exc α) (a : α)
    (h : (b (ds ++ [st.now + dur]) st).2 = .ok a) :
    (withTimeout dur ds st b).2 = .ok a := by
  unfold withTimeout
  rcases hb : b (ds ++ [st.now + dur]) st with ⟨st1, r1⟩
  rw [hb] at h
  dsimp only at h
  subst h
  rfl

lemma get_token_body_token_or_ok (ds : List ℚ) (st : ApiState) :
    (get_token_body ds st).1.token = st.token ∨ (get_token_body ds st).2 = .ok () := by
  unfold get_token_body
  rcases hq : st.loginQueue with _ | ⟨nr, rest⟩
  · exact Or.inl rfl
  · dsimp only
    rcases hw : doWait ds nr.dur { st with loginQueue := rest } with ⟨st2, r2⟩
    have htok : st2.token = st.token := by
      have t := doWait_token ds nr.dur { st with loginQueue := rest }
      rw [hw] at t
      exact t
    rcases r2 with e | u
    · exact Or.inl htok
    · rcases nr.out with ⟨status, body⟩ | m
      · dsimp only
        split
        · exact Or.inl htok
        · split
          · exact Or.inl htok
          · split
            · exact Or.inl htok
            · rcases hp : parse_json_response body with e | data <;> dsimp only
              · exact Or.inl htok
              · split
                · exact Or.inr rfl
                · exact Or.inl htok
      · exact Or.inl htok

lemma get_token_token_or_ok (ds : List ℚ) (st : ApiState) :
    (get_token ds st).1.token = st.token ∨ (get_token ds st).2 = .ok () := by
  have hb := get_token_body_token_or_ok (ds ++ [st.now + API_TIMEOUT]) st
  have hfst := withTimeout_fst API_TIMEOUT ds st get_token_body
  unfold get_token
  rcases hr : withTimeout API_TIMEOUT ds st get_token_body with ⟨st1, r1⟩
  rw [hr] at hfst
  rcases hb with htok | hok
  · have h1 : st1.token = st.token := (congrArg ApiState.token hfst).trans htok
    rcases r1 with e | u
    · rcases e <;> exact Or.inl h1
    · exact Or.inl h1
  · have h2 := withTimeout_of_body_ok API_TIMEOUT ds st get_token_body () hok
    rw [hr] at h2
    dsimp only at h2
    subst h2
    exact Or.inr rfl

lemma fetch_frame (tok : Option JVal) (ds : List ℚ) (st : ApiState) :
    (fetch_devices_with_token tok ds st).1.loginQueue = st.loginQueue ∧
    (fetch_devices_with_token tok ds st).1.token = st.token := by
  unfold fetch_devices_with_token
  rcases hq : st.deviceQueue with _ | ⟨nr, rest⟩
  · exact ⟨rfl, rfl⟩
  · dsimp only
    rcases hw : doWait ds nr.dur { st with deviceQueue := rest } with ⟨st2, r2⟩
    have t1 := doWait_loginQueue ds nr.dur { st with deviceQueue := rest }
    have t2 := doWait_token ds nr.dur { st with deviceQueue := rest }
    rw [hw] at t1 t2
    rcases r2 with e | u
    · exact ⟨t1, t2⟩
    · rcases nr.out with ⟨status, body⟩ | m
      · dsimp only
        split
        · exact ⟨t1, t2⟩
        · rcases hp : parse_json_response body with e | data <;> dsimp only
          · exact ⟨t1, t2⟩
          · exact ⟨t1, t2⟩
      · exact ⟨t1, t2⟩

lemma fetch_ok_data (tok : Option JVal) (ds : List ℚ) (st st1 : ApiState)
    (data : JVal)
    (h : fetch_devices_with_token tok ds st = (st1, .ok data)) :
    ∃ nr rest, st.deviceQueue = nr :: rest ∧ ∃ status flds,
      nr.out = .resp status (some (.jobj flds)) ∧ data = .jobj flds := by
  unfold fetch_devices_with_token at h
  rcases hq : st.deviceQueue with _ | ⟨nr, rest⟩ <;> rw [hq] at h
  · cases h
  · dsimp only at h
    refine ⟨nr, rest, rfl, ?_⟩
    rcases hw : doWait ds nr.dur { st with deviceQueue := rest } with ⟨st2, r2⟩
    rw [hw] at h
    rcases r2 with e | u
    · cases h
    · rcases ho : nr.out with ⟨status, body⟩ | m <;> rw [ho] at h
      · dsimp only at h
        split at h
        · cases h
        · rcases hp : parse_json_response body with e | d2 <;> rw [hp] at h
          · cases h
          · dsimp only at h
            rcases h with ⟨⟩
            unfold parse_json_response at hp
            rcases body with _ | b
            · cases hp
            · rcases b with _ | _ | _ | _ | _ | _ | flds <;> try (cases hp)
              exact ⟨status, flds, rfl, rfl⟩
      · cases h

lemma get_devices_body_loginQueue (ds : List ℚ) (st : ApiState)
    (hns : ∀ nr rest, st.deviceQueue = nr :: rest →
      ∀ status flds, nr.out = .resp status (some (.jobj flds)) →
        tokenInvalid (jget (.jobj flds) "code") = false) :
    (get_devices_body ds st).1.loginQueue = st.loginQueue := by
  unfold get_devices_body
  rcases hf : fetch_devices_with_token st.token ds st with ⟨st1, r1⟩
  have hfr := fetch_frame st.token ds st
  rw [hf] at hfr
  rcases r1 with e | data
  · exact hfr.1
  · obtain ⟨nr, rest, hq, status, flds, hout, hdata⟩ :=
      fetch_ok_data st.token ds st st1 data hf
    have hti : tokenInvalid (jget data "code") = false := by
      rw [hdata]
      exact hns nr rest hq status flds hout
    dsimp only
    simp only [hti, Bool.false_eq_true, if_false]
    split
    · exact hfr.1
    · split
      · exact hfr.1
      · split
        · exact hfr.1
        · exact hfr.1

lemma rhe_nonneg (q : ℚ) (h : 0 ≤ q) : 0 ≤ rhe q := by
  have hf : (0 : ℤ) ≤ ⌊q⌋ := Int.le_floor.mpr (by exact_mod_cast h)
  unfold rhe
  split
  · exact hf
  · split
    · omega
    · split <;> omega

lemma rhe_pos (q : ℚ) (h : 0 < rhe q) : 0 < q := by
  have hfl : (⌊q⌋ : ℚ) ≤ q := Int.floor_le q
  unfold rhe at h
  split at h
  · have : (1 : ℚ) ≤ (⌊q⌋ : ℚ) := by exact_mod_cast h
    linarith
  · next h1 =>
    push_neg at h1
    split at h
    · have : (0 : ℚ) ≤ (⌊q⌋ : ℚ) := by
        have : (0 : ℤ) ≤ ⌊q⌋ := by omega
        exact_mod_cast this
      linarith
    · split at h
      · have : (1 : ℚ) ≤ (⌊q⌋ : ℚ) := by exact_mod_cast h
        linarith
      · have : (0 : ℚ) ≤ (⌊q⌋ : ℚ) := by
          have : (0 : ℤ) ≤ ⌊q⌋ := by omega
          exact_mod_cast this
        linarith

lemma pyRound1_nonneg (q : ℚ) (h : 0 ≤ q) : 0 ≤ pyRound1 q := by
  unfold pyRound1
  have h1 : (0 : ℤ) ≤ rhe (10 * q) := rhe_nonneg _ (by linarith)
  have h2 : (0 : ℚ) ≤ ((rhe (10 * q) : ℤ) : ℚ) := by exact_mod_cast h1
  positivity

lemma pyRound1_pos (q : ℚ) (h : 0 < pyRound1 q) : 0 < q := by
  unfold pyRound1 at h
  have h1 : (0 : ℚ) < ((rhe (10 * q) : ℤ) : ℚ) := by
    by_contra hc
    push_neg at hc
    have : pyRound1 q ≤ 0 := by
      unfold pyRound1
      exact div_nonpos_of_nonpos_of_nonneg hc (by norm_num)
    unfold pyRound1 at this
    linarith
  have h2 : (0 : ℤ) < rhe (10 * q) := by exact_mod_cast h1
  have := rhe_pos _ h2
  linarith


lemma pyStr_eight_not_tokenInvalid (v : JVal) (h : pyStr v = "8") :
    tokenInvalid v = false := by
  cases v with
  | jnull => rfl
  | jbool b => cases b <;> rfl
  | jarr xs => rfl
  | jobj fs => rfl
  | jstr s =>
    simp only [pyStr] at h
    subst h
    rfl
  | jint n =>
    simp only [pyStr] at h
    by_contra hinv
    rw [Bool.not_eq_false] at hinv
    simp [tokenInvalid, TOKEN_INVALID_CODES, pyEq, toNum] at hinv
    have h2 : n = -1 ∨ n = 401 ∨ n = 403 := by
      rcases hinv with h1 | h1 | h1
      · exact Or.inl (by exact_mod_cast h1)
      · exact Or.inr (Or.inl (by exact_mod_cast h1))
      · exact Or.inr (Or.inr (by exact_mod_cast h1))
    rcases h2 with rfl | rfl | rfl <;> exact absurd h (by decide)
  | jrat q =>
    simp only [pyStr] at h
    by_contra hinv
    rw [Bool.not_eq_false] at hinv
    simp [tokenInvalid, TOKEN_INVALID_CODES, pyEq, toNum] at hinv
    rcases hinv with rfl | rfl | rfl <;> exact absurd h (by decide)

/- Claim theorems. -/

set_option maxHeartbeats 1000000 in
/-- C1: for every device-list response whose `code` is one of the six
token-invalid sentinel values (hypothesis `tokenInvalid c = true`),
`get_devices` performs exactly one token refresh and exactly one retried
device-list request - the final state shows precisely one login-queue
entry and two device-queue entries consumed, so there is no second
refresh or retry in the same call - and when the retried request
succeeds (a dict body with a `data` list and a code that does not
string-compare to "8") it returns the filtered device data of the retried response
data. -/
theorem get_devices_sentinel_single_refresh_and_retry
    (tv c tok2 : JVal) (s1 s2 : Nat) (flds2 : List (String × JVal)) (devs : List JVal)
    (lrest drest : List NetResult)
    (htv : truthy tv = true)
    (hc : tokenInvalid c = true)
    (hs1 : ¬ 500 ≤ s1) (hs2 : ¬ 500 ≤ s2)
    (htok2 : truthy tok2 = true)
    (hc2 : pyStr (jget (.jobj flds2) "code") ≠ "8")
    (hdata : jlookup (.jobj flds2) "data" = some (.jarr devs)) :
    get_devices ⟨some tv, 0,
        ⟨0, .resp 200 (some (.jobj [("token", tok2)]))⟩ :: lrest,
        ⟨0, .resp s1 (some (.jobj [("code", c)]))⟩ ::
          ⟨0, .resp s2 (some (.jobj flds2))⟩ :: drest⟩ =
      (⟨some tok2, 0, lrest, drest⟩, .ok (filter_devices devs)) := by
  simp only [jget, jlookup] at hc2 hdata
  norm_num [get_devices, get_devices_body, withTimeout, fetch_devices_with_token,
    handle_token_refresh_and_retry, retry_body, get_token, get_token_body,
    doWait, pickFired, parse_json_response, tokenTruthy, jget, jlookup,
    List.lookup, API_TIMEOUT, API_RETRY_TIMEOUT, htv, hc, hs1, hs2, htok2,
    hc2, hdata]

/-- C1 witness: sentinel code `-1`, retry succeeds with an empty device
list. -/
theorem get_devices_sentinel_single_refresh_and_retry_witness :
    get_devices ⟨some (.jstr "t"), 0,
        [⟨0, .resp 200 (some (.jobj [("token", .jstr "t2")]))⟩],
        [⟨0, .resp 200 (some (.jobj [("code", .jint (-1))]))⟩,
         ⟨0, .resp 200 (some (.jobj [("code", .jint 0), ("data", .jarr [])]))⟩]⟩ =
      (⟨some (.jstr "t2"), 0, [], []⟩, .ok (filter_devices [])) :=
  get_devices_sentinel_single_refresh_and_retry
    (.jstr "t") (.jint (-1)) (.jstr "t2") 200 200
    [("code", .jint 0), ("data", .jarr [])] [] [] []
    rfl rfl (by decide) (by decide) rfl (by decide) rfl

set_option maxHeartbeats 1000000 in
/-- C2: for every device-list response whose `code` string-compares equal
to "8" (any value `c` with `pyStr c = "8"`), `get_devices` clears the
stored token and fails with the access-denied message; the full final
state shows that the token becoming `None` is the only change to the
stored fields (besides the consumed oracle entry), and the message
contains "access denied". -/
theorem get_devices_code8_clears_token
    (tv : JVal) (s1 : Nat) (flds : List (String × JVal))
    (lq drest : List NetResult)
    (htv : truthy tv = true)
    (hs1 : ¬ 500 ≤ s1)
    (hc : pyStr (jget (.jobj flds) "code") = "8") :
    get_devices ⟨some tv, 0, lq, ⟨0, .resp s1 (some (.jobj flds))⟩ :: drest⟩ =
      (⟨none, 0, lq, drest⟩,
       .error (.updateFailed
         "API access denied (code 8) - account may not have API permissions")) ∧
    strContains
      "API access denied (code 8) - account may not have API permissions"
      "access denied" = true := by
  have hninv := pyStr_eight_not_tokenInvalid _ hc
  simp only [jget, jlookup] at hc hninv
  refine ⟨?_, by decide⟩
  norm_num [get_devices, get_devices_body, withTimeout, fetch_devices_with_token,
    handle_token_refresh_and_retry, retry_body, get_token, get_token_body,
    doWait, pickFired, parse_json_response, tokenTruthy, jget, jlookup,
    List.lookup, API_TIMEOUT, API_RETRY_TIMEOUT, htv, hs1, hc, hninv]

/-- C2 witness: numeric code `8`. -/
theorem get_devices_code8_clears_token_witness :
    get_devices ⟨some (.jstr "t"), 0, [],
        [⟨0, .resp 200 (some (.jobj [("code", .jint 8)]))⟩]⟩ =
      (⟨none, 0, [], []⟩,
       .error (.updateFailed
         "API access denied (code 8) - account may not have API permissions")) ∧
    strContains
      "API access denied (code 8) - account may not have API permissions"
      "access denied" = true :=
  get_devices_code8_clears_token (.jstr "t") 200 [("code", .jint 8)] [] []
    rfl (by decide) (by decide)

/-- C3: every `UpdateFailed` raised by `get_devices` is re-raised by
`_async_update_data` as exactly one of two kinds: `ConfigEntryAuthFailed`
when and only when the message contains the invalid-credentials substring
or the HTTP 401 substring, and otherwise the same `UpdateFailed`
unchanged (in the Python code every failure of `get_devices` is an
`UpdateFailed`, so no failure escapes unclassified). -/
theorem async_update_data_classifies_failures (cs : CoordState) (msg : String)
    (h : (get_devices cs.api).2 = .error (.updateFailed msg)) :
    async_update_data cs =
      ({ cs with api := (get_devices cs.api).1 },
       .error (if strContains msg "Invalid email or password" ||
                  strContains msg "HTTP 401"
               then .configEntryAuthFailed msg
               else .updateFailedExc msg)) := by
  unfold async_update_data
  rcases hg : get_devices cs.api with ⟨st, r⟩
  rw [hg] at h
  dsimp only at h
  subst h
  dsimp only
  split <;> rfl

/-- C3 witness: a malformed-body failure is re-raised unchanged as a
transient `UpdateFailed`. -/
theorem async_update_data_classifies_failures_witness :
    async_update_data ⟨⟨some (.jstr "t"), 0, [], [⟨0, .resp 200 none⟩]⟩, none⟩ =
      ({ api := (get_devices ⟨some (.jstr "t"), 0, [], [⟨0, .resp 200 none⟩]⟩).1,
          last_latency := none },
       .error (if strContains "API returned invalid response format"
                    "Invalid email or password" ||
                  strContains "API returned invalid response format" "HTTP 401"
               then .configEntryAuthFailed "API returned invalid response format"
               else .updateFailedExc "API returned invalid response format")) :=
  async_update_data_classifies_failures
    ⟨⟨some (.jstr "t"), 0, [], [⟨0, .resp 200 none⟩]⟩, none⟩
    "API returned invalid response format"
    (show (get_devices ⟨some (.jstr "t"), 0, [], [⟨0, .resp 200 none⟩]⟩).2 =
        .error (.updateFailed "API returned invalid response format") from by
      with_unfolding_all rfl)

/-- C4: `_get_token` classifies the login HTTP status in order: 401 fails
with "Invalid email or password"; >= 500 fails with the
temporarily-unavailable message carrying the literal status code; any
other non-200 status fails with "API request failed (HTTP code)"; only
status 200 proceeds to body parsing (shown by the parse failure at 200
with an unparseable body, and by the success at 200 with a dict body
holding a truthy token, which stores that token). -/
theorem get_token_status_classification
    (tk : Option JVal) (status : Nat) (body : Option JVal)
    (lrest dq : List NetResult) :
    (status = 401 →
      get_token [] ⟨tk, 0, ⟨0, .resp status body⟩ :: lrest, dq⟩ =
        (⟨tk, 0, lrest, dq⟩, .error (.updateFailed "Invalid email or password"))) ∧
    (status ≠ 401 → 500 ≤ status →
      get_token [] ⟨tk, 0, ⟨0, .resp status body⟩ :: lrest, dq⟩ =
        (⟨tk, 0, lrest, dq⟩, .error (.updateFailed
          ("API temporarily unavailable (HTTP " ++ toString status ++ ")")))) ∧
    (status ≠ 401 → ¬ 500 ≤ status → status ≠ 200 →
      get_token [] ⟨tk, 0, ⟨0, .resp status body⟩ :: lrest, dq⟩ =
        (⟨tk, 0, lrest, dq⟩, .error (.updateFailed
          ("API request failed (HTTP " ++ toString status ++ ")")))) ∧
    (status = 200 → body = none →
      get_token [] ⟨tk, 0, ⟨0, .resp status body⟩ :: lrest, dq⟩ =
        (⟨tk, 0, lrest, dq⟩, .error (.updateFailed
          "API returned invalid response format"))) ∧
    (∀ flds, status = 200 → body = some (.jobj flds) →
      truthy (jget (.jobj flds) "token") = true →
      get_token [] ⟨tk, 0, ⟨0, .resp status body⟩ :: lrest, dq⟩ =
        (⟨some (jget (.jobj flds) "token"), 0, lrest, dq⟩, .ok ())) := by
  refine ⟨?_, ?_, ?_, ?_, ?_⟩
  · intro h1
    subst h1
    norm_num [get_token, get_token_body, withTimeout, doWait, pickFired,
      API_TIMEOUT]
  · intro h1 h2
    norm_num [get_token, get_token_body, withTimeout, doWait, pickFired,
      API_TIMEOUT, h1, h2]
  · intro h1 h2 h3
    norm_num [get_token, get_token_body, withTimeout, doWait, pickFired,
      API_TIMEOUT, h1, h2, h3]
  · intro h1 h2
    subst h1
    subst h2
    norm_num [get_token, get_token_body, withTimeout, doWait, pickFired,
      parse_json_response, API_TIMEOUT]
  · intro flds h1 h2 htok
    subst h1
    subst h2
    norm_num [get_token, get_token_body, withTimeout, doWait, pickFired,
      parse_json_response, API_TIMEOUT, htok]

/-- C4 witness: status 401 fails with the invalid-credentials message. -/
theorem get_token_status_classification_witness :
    get_token [] ⟨none, 0, [⟨0, .resp 401 none⟩], []⟩ =
      (⟨none, 0, [], []⟩, .error (.updateFailed "Invalid email or password")) :=
  (get_token_status_classification none 401 none [] []).1 rfl

/-- C5: on a successful device-list response, `get_devices` returns
exactly `_filter_devices` of the `data` array: a sublist of the original
(so the relative order of the remaining entries is preserved) containing
exactly the entries whose `type` does not Python-equal "HME-3", the only
ignored type. -/
theorem get_devices_filters_hme3
    (tv : JVal) (devs : List JVal) (lq drest : List NetResult)
    (htv : truthy tv = true) :
    get_devices ⟨some tv, 0, lq,
        ⟨0, .resp 200 (some (.jobj
          [("code", .jint 0), ("data", .jarr devs)]))⟩ :: drest⟩ =
      (⟨some tv, 0, lq, drest⟩, .ok (filter_devices devs)) ∧
    (filter_devices devs).Sublist devs ∧
    (∀ d, d ∈ filter_devices devs ↔
      d ∈ devs ∧ pyEq (jget d "type") (.jstr "HME-3") = false) := by
  refine ⟨?_, List.filter_sublist devs, ?_⟩
  · have h0 : List.lookup "code" [("code", JVal.jint 0), ("data", JVal.jarr devs)]
        = some (JVal.jint 0) := rfl
    have h1 : List.lookup "data" [("code", JVal.jint 0), ("data", JVal.jarr devs)]
        = some (JVal.jarr devs) := rfl
    have h2 : toString (0 : ℤ) ≠ "8" := by decide
    norm_num [get_devices, get_devices_body, withTimeout,
      fetch_devices_with_token, parse_json_response, doWait, pickFired,
      tokenTruthy, tokenInvalid, TOKEN_INVALID_CODES, pyEq, toNum, pyStr,
      jget, jlookup, API_TIMEOUT, htv, h0, h1, h2]
  · intro d
    simp [filter_devices, IGNORED_DEVICE_TYPES, List.mem_filter]

/-- C5 witness: a mixed list keeps the two non-HME-3 devices in order. -/
theorem get_devices_filters_hme3_witness :
    get_devices ⟨some (.jstr "t"), 0, [],
        [⟨0, .resp 200 (some (.jobj [("code", .jint 0), ("data", .jarr
          [.jobj [("devid", .jstr "a"), ("type", .jstr "HME-5")],
           .jobj [("devid", .jstr "b"), ("type", .jstr "HME-3")],
           .jobj [("devid", .jstr "c"), ("type", .jstr "VenusE")]])]))⟩]⟩ =
      (⟨some (.jstr "t"), 0, [], []⟩, .ok (filter_devices
          [.jobj [("devid", .jstr "a"), ("type", .jstr "HME-5")],
           .jobj [("devid", .jstr "b"), ("type", .jstr "HME-3")],
           .jobj [("devid", .jstr "c"), ("type", .jstr "VenusE")]])) ∧
    filter_devices
        [.jobj [("devid", .jstr "a"), ("type", .jstr "HME-5")],
         .jobj [("devid", .jstr "b"), ("type", .jstr "HME-3")],
         .jobj [("devid", .jstr "c"), ("type", .jstr "VenusE")]] =
      [.jobj [("devid", .jstr "a"), ("type", .jstr "HME-5")],
       .jobj [("devid", .jstr "c"), ("type", .jstr "VenusE")]] :=
  ⟨(get_devices_filters_hme3 (.jstr "t") _ [] [] rfl).1, by with_unfolding_all rfl⟩

set_option maxHeartbeats 2000000 in
/-- C6 counterexample: the claim says the retried request always has a
full fresh 10-second budget.  Here the primary request takes 6 seconds,
the refresh is instantaneous and the retry would take 8 seconds - well
within its own `API_RETRY_TIMEOUT` of 10 seconds - yet `get_devices`
fails with the timeout error, because the retry runs nested inside the
outer `asyncio.timeout(API_TIMEOUT)` block of `get_devices` whose
deadline (10 seconds after entry) fires first. -/
theorem get_devices_retry_budget_counterexample :
    (8 : ℚ) < API_RETRY_TIMEOUT ∧
    get_devices ⟨some (.jstr "t"), 0,
        [⟨0, .resp 200 (some (.jobj [("token", .jstr "t2")]))⟩],
        [⟨6, .resp 200 (some (.jobj [("code", .jint (-1))]))⟩,
         ⟨8, .resp 200 (some (.jobj [("code", .jint 0), ("data", .jarr [])]))⟩]⟩ =
      (⟨some (.jstr "t2"), 10, [], []⟩,
       .error (.updateFailed "API request timeout - check network connection")) := by
  have ht : truthy (JVal.jstr "t") = true := rfl
  have ht2 : truthy (JVal.jstr "t2") = true := rfl
  have hti : tokenInvalid (JVal.jint (-1)) = true := rfl
  constructor
  · norm_num [API_RETRY_TIMEOUT]
  · norm_num [get_devices, get_devices_body, withTimeout,
      fetch_devices_with_token, handle_token_refresh_and_retry, retry_body,
      get_token, get_token_body, doWait, pickFired, parse_json_response,
      tokenTruthy, jget, jlookup, List.lookup, API_TIMEOUT,
      API_RETRY_TIMEOUT, ht, ht2, hti]

set_option maxHeartbeats 2000000 in
/-- C6 amended: the retried device-list request runs under its own
nested `asyncio.timeout(API_RETRY_TIMEOUT)` (10 s), but the outer
10-second timeout of `get_devices` stays active during the refresh and
the retry, so the effective budget of the retry is the time remaining in the
outer window, not a full fresh 10 seconds: after a 6-second primary
request and an instantaneous refresh, a retry of duration `d3` completes
when `d3 < 4` and is cancelled by the outer timeout when `4 < d3`, even
though `d3` is within `API_RETRY_TIMEOUT`. -/
theorem get_devices_retry_nested_timeout
    (d3 : ℚ) :
    (d3 < 4 →
      get_devices ⟨some (.jstr "t"), 0,
          [⟨0, .resp 200 (some (.jobj [("token", .jstr "t2")]))⟩],
          [⟨6, .resp 200 (some (.jobj [("code", .jint (-1))]))⟩,
           ⟨d3, .resp 200 (some (.jobj [("code", .jint 0), ("data", .jarr [])]))⟩]⟩ =
        (⟨some (.jstr "t2"), 6 + d3, [], []⟩, .ok [])) ∧
    (4 < d3 → d3 < API_RETRY_TIMEOUT →
      get_devices ⟨some (.jstr "t"), 0,
          [⟨0, .resp 200 (some (.jobj [("token", .jstr "t2")]))⟩],
          [⟨6, .resp 200 (some (.jobj [("code", .jint (-1))]))⟩,
           ⟨d3, .resp 200 (some (.jobj [("code", .jint 0), ("data", .jarr [])]))⟩]⟩ =
        (⟨some (.jstr "t2"), 10, [], []⟩,
         .error (.updateFailed "API request timeout - check network connection"))) := by
  have ht : truthy (JVal.jstr "t") = true := rfl
  have ht2 : truthy (JVal.jstr "t2") = true := rfl
  have hti : tokenInvalid (JVal.jint (-1)) = true := rfl
  have hy : List.lookup "code" [("code", JVal.jint 0), ("data", JVal.jarr [])]
      = some (JVal.jint 0) := rfl
  have hx : List.lookup "data" [("code", JVal.jint 0), ("data", JVal.jarr [])]
      = some (JVal.jarr []) := rfl
  have h8 : toString (0 : ℤ) ≠ "8" := by decide
  constructor
  · intro hlt
    have hA1 : ¬((10 : ℚ) < 6 + d3) := by linarith
    have hA2 : ¬((16 : ℚ) < 6 + d3) := by linarith
    norm_num [get_devices, get_devices_body, withTimeout,
      fetch_devices_with_token, handle_token_refresh_and_retry, retry_body,
      get_token, get_token_body, doWait, pickFired, parse_json_response,
      tokenTruthy, pyStr, jget, jlookup, filter_devices, API_TIMEOUT,
      API_RETRY_TIMEOUT, ht, ht2, hti, hx, hy, h8, hA1, hA2]
  · intro hgt hlt
    rw [API_RETRY_TIMEOUT] at hlt
    have hB1 : (10 : ℚ) < 6 + d3 := by linarith
    have hB2 : ¬((16 : ℚ) < 6 + d3) := by linarith
    norm_num [get_devices, get_devices_body, withTimeout,
      fetch_devices_with_token, handle_token_refresh_and_retry, retry_body,
      get_token, get_token_body, doWait, pickFired, parse_json_response,
      tokenTruthy, jget, jlookup, List.lookup, API_TIMEOUT,
      API_RETRY_TIMEOUT, ht, ht2, hti, hB1, hB2]

/-- C6 witness: a 3-second retry (total 9 s) completes; an 8-second retry
(total 14 s, still under its own 10-second budget) is cancelled by the
outer timeout. -/
theorem get_devices_retry_nested_timeout_witness :
    get_devices ⟨some (.jstr "t"), 0,
        [⟨0, .resp 200 (some (.jobj [("token", .jstr "t2")]))⟩],
        [⟨6, .resp 200 (some (.jobj [("code", .jint (-1))]))⟩,
         ⟨3, .resp 200 (some (.jobj [("code", .jint 0), ("data", .jarr [])]))⟩]⟩ =
      (⟨some (.jstr "t2"), 6 + 3, [], []⟩, .ok []) ∧
    get_devices ⟨some (.jstr "t"), 0,
        [⟨0, .resp 200 (some (.jobj [("token", .jstr "t2")]))⟩],
        [⟨6, .resp 200 (some (.jobj [("code", .jint (-1))]))⟩,
         ⟨8, .resp 200 (some (.jobj [("code", .jint 0), ("data", .jarr [])]))⟩]⟩ =
      (⟨some (.jstr "t2"), 10, [], []⟩,
       .error (.updateFailed "API request timeout - check network connection")) :=
  ⟨(get_devices_retry_nested_timeout 3).1 (by decide),
   (get_devices_retry_nested_timeout 8).2 (by decide) (by decide)⟩

/-- C7: a `get_devices` call that starts with no stored token and whose
login request exceeds the 10-second login timeout fails with the timeout
message (which contains "timeout") and leaves the token absent; and in
general every failing path of `_get_token` leaves the token field
unchanged. -/
theorem get_token_failure_leaves_token
    : (∀ (o : NetOutcome) (d : ℚ) (lrest dq : List NetResult), 10 < d →
        get_devices ⟨none, 0, ⟨d, o⟩ :: lrest, dq⟩ =
          (⟨none, 10, lrest, dq⟩,
           .error (.updateFailed "API request timeout - check network connection")) ∧
        strContains "API request timeout - check network connection"
          "timeout" = true) ∧
      (∀ (ds : List ℚ) (st : ApiState) (e : Exc),
        (get_token ds st).2 = .error e →
        (get_token ds st).1.token = st.token) := by
  constructor
  · intro o d lrest dq hd
    refine ⟨?_, by decide⟩
    norm_num [get_devices, get_token, get_token_body, withTimeout, doWait,
      pickFired, tokenTruthy, API_TIMEOUT, hd]
  · intro ds st e he
    rcases get_token_token_or_ok ds st with h | h
    · exact h
    · rw [he] at h
      cases h

/-- C7 witness: an 11-second login response on a token-less call. -/
theorem get_token_failure_leaves_token_witness :
    (get_devices ⟨none, 0, [⟨11, .resp 200 none⟩], []⟩ =
      (⟨none, 10, [], []⟩,
       .error (.updateFailed "API request timeout - check network connection")) ∧
     strContains "API request timeout - check network connection"
       "timeout" = true) ∧
    (get_token [] ⟨none, 0, [], []⟩).1.token = none :=
  ⟨get_token_failure_leaves_token.1 (.resp 200 none) 11 [] [] (by decide),
   get_token_failure_leaves_token.2 [] ⟨none, 0, [], []⟩ .modelError rfl⟩

/-- C8: given a well-formed oracle (non-negative durations), a successful
refresh cycle stores the elapsed time in milliseconds rounded half-even
to one decimal place - a non-negative value - as `last_latency` and
returns the device list of `get_devices` unchanged as the published
state; a failed cycle leaves `last_latency` at its previous value. -/
theorem async_update_data_latency (cs : CoordState) (hwf : queuesWF cs.api) :
    (∀ devs, (async_update_data cs).2 = .ok devs →
      (async_update_data cs).1.last_latency =
        some (pyRound1 (((get_devices cs.api).1.now - cs.api.now) * 1000)) ∧
      0 ≤ pyRound1 (((get_devices cs.api).1.now - cs.api.now) * 1000) ∧
      (get_devices cs.api).2 = .ok devs) ∧
    (∀ e, (async_update_data cs).2 = .error e →
      (async_update_data cs).1.last_latency = cs.last_latency) := by
  have hnow := get_devices_now cs.api hwf
  unfold async_update_data
  rcases hg : get_devices cs.api with ⟨st, r⟩
  rw [hg] at hnow
  dsimp only at hnow ⊢
  rcases r with e | devices
  · constructor
    · intro devs hok
      exfalso
      rcases e with m | m | _ | i | _ <;> dsimp only at hok <;>
        first | (split at hok <;> cases hok) | cases hok
    · intro e2 he
      rcases e with m | m | _ | i | _ <;> dsimp only <;>
        first | (split <;> rfl) | rfl
  · constructor
    · intro devs hok
      dsimp only at hok
      rcases hok with ⟨⟩
      refine ⟨rfl, ?_, rfl⟩
      have hd : (0 : ℚ) ≤ (st.now - cs.api.now) * 1000 := by nlinarith
      exact pyRound1_nonneg _ hd
    · intro e he
      cases he

/-- C8 witness: a 2-second successful cycle stores a latency value. -/
theorem async_update_data_latency_witness :
    (async_update_data ⟨⟨some (.jstr "t"), 0, [],
        [⟨2, .resp 200 (some (.jobj [("code", .jint 0), ("data", .jarr [])]))⟩]⟩,
        none⟩).1.last_latency =
      some (pyRound1 (((get_devices ⟨some (.jstr "t"), 0, [],
        [⟨2, .resp 200 (some (.jobj [("code", .jint 0), ("data", .jarr [])]))⟩]⟩).1.now
          - 0) * 1000)) ∧
    0 ≤ pyRound1 (((get_devices ⟨some (.jstr "t"), 0, [],
        [⟨2, .resp 200 (some (.jobj [("code", .jint 0), ("data", .jarr [])]))⟩]⟩).1.now
          - 0) * 1000) ∧
    (get_devices ⟨some (.jstr "t"), 0, [],
        [⟨2, .resp 200 (some (.jobj [("code", .jint 0), ("data", .jarr [])]))⟩]⟩).2 =
      .ok [] := by
  have hwf : queuesWF ⟨some (.jstr "t"), 0, [],
      [⟨2, .resp 200 (some (.jobj [("code", .jint 0), ("data", .jarr [])]))⟩]⟩ := by
    constructor
    · intro r hr
      cases hr
    · intro r hr
      obtain rfl := List.mem_singleton.mp hr
      decide
  exact (async_update_data_latency _ hwf).1 [] (by with_unfolding_all rfl)

/-- C9: with a truthy stored token and a device-list response whose code
is not a token-invalid sentinel (the unchanged-upstream-data situation),
`get_devices` issues no login request at all: the login queue is
untouched.  Together with the fact that `get_token` is invoked at the
start of `get_devices` only under `if not self._token`, this is the
idempotence property: a second back-to-back call with a still-valid
token performs no login. -/
theorem get_devices_no_login_when_token_valid (st : ApiState)
    (htv : tokenTruthy st = true)
    (hns : ∀ nr rest, st.deviceQueue = nr :: rest →
      ∀ status flds, nr.out = .resp status (some (.jobj flds)) →
        tokenInvalid (jget (.jobj flds) "code") = false) :
    (get_devices st).1.loginQueue = st.loginQueue := by
  unfold get_devices
  rw [if_pos htv]
  dsimp only
  have hb := get_devices_body_loginQueue ([] ++ [st.now + API_TIMEOUT]) st hns
  have hfst := withTimeout_fst API_TIMEOUT [] st get_devices_body
  rcases hr : withTimeout API_TIMEOUT [] st get_devices_body with ⟨st3, r3⟩
  rw [hr] at hfst
  have h3 : st3.loginQueue = st.loginQueue :=
    (congrArg ApiState.loginQueue hfst).trans hb
  rcases r3 with e | d
  · rcases e <;> exact h3
  · exact h3

/-- C9 witness: a login response is queued but not consumed. -/
theorem get_devices_no_login_when_token_valid_witness :
    (get_devices ⟨some (.jstr "t"), 0,
        [⟨0, .resp 200 (some (.jobj [("token", .jstr "x")]))⟩],
        [⟨0, .resp 200 (some (.jobj [("code", .jint 0), ("data", .jarr [])]))⟩]⟩).1.loginQueue =
      [⟨0, .resp 200 (some (.jobj [("token", .jstr "x")]))⟩] :=
  get_devices_no_login_when_token_valid _ rfl
    (by
      intro nr rest h status flds hout
      cases h
      cases hout
      rfl)

/-- C10: for every truthy device record whose `pv` and `discharge` fields
(defaulting to integer 0 when absent) are numeric, the calculated charge
power is `max(0.0, round(pv - discharge, 1))`, the calculated discharge
power is `max(0.0, round(discharge - pv, 1))`, both are non-negative,
and they are never both positive. -/
theorem calculated_power_split (dev : JVal) (pv dc : ℚ)
    (hdev : truthy dev = true)
    (hpv : toNum (jgetD dev "pv" (.jint 0)) = some pv)
    (hdc : toNum (jgetD dev "discharge" (.jint 0)) = some dc) :
    native_value_charge (some dev) = some (max 0 (pyRound1 (pv - dc))) ∧
    native_value_discharge (some dev) = some (max 0 (pyRound1 (dc - pv))) ∧
    (∀ q, native_value_charge (some dev) = some q → 0 ≤ q) ∧
    (∀ q, native_value_discharge (some dev) = some q → 0 ≤ q) ∧
    ¬(0 < max 0 (pyRound1 (pv - dc)) ∧ 0 < max 0 (pyRound1 (dc - pv))) := by
  have h1 : native_value_charge (some dev) = some (max 0 (pyRound1 (pv - dc))) := by
    simp [native_value_charge, optTruthy, hdev, hpv, hdc]
  have h2 : native_value_discharge (some dev)
      = some (max 0 (pyRound1 (dc - pv))) := by
    simp [native_value_discharge, optTruthy, hdev, hpv, hdc]
  refine ⟨h1, h2, ?_, ?_, ?_⟩
  · intro q hq
    rw [h1] at hq
    rcases hq with ⟨⟩
    exact le_max_left _ _
  · intro q hq
    rw [h2] at hq
    rcases hq with ⟨⟩
    exact le_max_left _ _
  · rintro ⟨ha, hb⟩
    rw [lt_max_iff] at ha hb
    rcases ha with ha | ha
    · exact absurd ha (lt_irrefl _)
    · rcases hb with hb | hb
      · exact absurd hb (lt_irrefl _)
      · have k1 := pyRound1_pos _ ha
        have k2 := pyRound1_pos _ hb
        linarith

/-- C10 witness: `pv = 100`, `discharge = 30`. -/
theorem calculated_power_split_witness :
    native_value_charge (some (.jobj [("pv", .jint 100), ("discharge", .jint 30)])) =
      some (max 0 (pyRound1 ((100 : ℚ) - 30))) ∧
    native_value_discharge (some (.jobj [("pv", .jint 100), ("discharge", .jint 30)])) =
      some (max 0 (pyRound1 ((30 : ℚ) - 100))) ∧
    ¬(0 < max 0 (pyRound1 ((100 : ℚ) - 30)) ∧
      0 < max 0 (pyRound1 ((30 : ℚ) - 100))) := by
  have h := calculated_power_split
    (.jobj [("pv", .jint 100), ("discharge", .jint 30)]) 100 30
    rfl (by decide) (by decide)
  exact ⟨h.1, h.2.1, h.2.2.2.2⟩
